import Mathlib

/-!
Shallow embedding of the layered configuration resolver in
`payjoin-cli/src/app/config.rs` (the `Config::new` pipeline, its helper
functions, and the custom key-bundle deserializer), together with a model of
the behaviour of the third-party `config` crate builder that the file uses
(defaults layer < file source < overrides layer), as documented in the
specification of this program.
-/

namespace PayjoinCli

/-- Configuration values as stored by the `config` crate builder: strings,
integers, and the nil value (produced by `None::<String>` defaults). -/
inductive CValue
  | nil
  | str (s : String)
  | int (i : Int)
deriving DecidableEq

/-- One sparse configuration layer: an association list from dotted keys to
values; a later `set` shadows an earlier one for the same key. -/
def Layer := List (String × CValue)

instance : DecidableEq Layer := by unfold Layer; infer_instance

/-- Look a key up in a layer (first, i.e. most recent, binding wins). -/
def Layer.get (l : Layer) (k : String) : Option CValue :=
  match l.find? (fun p => p.1 = k) with
  | some p => some p.2
  | none => none

/-- The `config` crate builder state relevant here: a defaults layer filled by
`set_default` and an overrides layer filled by `set_override_option`.  File
sources sit between the two at build time regardless of the order of calls. -/
structure Builder where
  defaults : Layer
  overrides : Layer
deriving DecidableEq

/-- The empty builder, as returned by `config::Config::builder()`. -/
def Builder.empty : Builder := ⟨[], []⟩

/-- Model of `ConfigBuilder::set_default`: records the value in the defaults
layer.  (In the source this returns `Result`, but it cannot fail for the
well-formed literal keys used in this program.) -/
def set_default (b : Builder) (k : String) (v : CValue) : Builder :=
  { b with defaults := (k, v) :: b.defaults }

/-- Model of `ConfigBuilder::set_override_option`: a no-op when the optional
value is absent, otherwise records the value in the overrides layer. -/
def set_override_option (b : Builder) (k : String) (v : Option CValue) : Builder :=
  match v with
  | none => b
  | some v => { b with overrides := (k, v) :: b.overrides }

/-- Model of flattening at `build()` time with an optional file source (an
absent `config.toml` is the empty layer): the resolved view of a key is the
overrides layer if it defines the key, else the file layer, else the defaults
layer.  This is the `config` crate precedence defaults < file < overrides. -/
def resolvedValue (b : Builder) (file : Layer) (k : String) : Option CValue :=
  match Layer.get b.overrides k with
  | some v => some v
  | none =>
    match Layer.get file k with
    | some v => some v
    | none => Layer.get b.defaults k

/-- Decimal digit character for a digit below ten. -/
def decDigitChar (d : Nat) : Char :=
  if d = 0 then '0' else if d = 1 then '1' else if d = 2 then '2' else
  if d = 3 then '3' else if d = 4 then '4' else if d = 5 then '5' else
  if d = 6 then '6' else if d = 7 then '7' else if d = 8 then '8' else '9'

/-- Fuelled producer of decimal digit characters, least significant digit
peeled off first and pushed onto the accumulator (the shape of the standard
decimal printing loop). -/
def natDigitsCore : Nat → Nat → List Char → List Char
  | 0, _, ds => ds
  | fuel + 1, n, ds =>
    let d := decDigitChar (n % 10)
    let n2 := n / 10
    if n2 = 0 then d :: ds else natDigitsCore fuel n2 (d :: ds)

/-- Decimal digit characters of a natural number, most significant first. -/
def natDigits (n : Nat) : List Char := natDigitsCore (n + 1) n []

/-- Decimal string of a natural number; models the display of an unsigned
integer on the Rust side (such as a fee rate turned into a string by the
`receive` override, or an integer value coerced to a string). -/
def natToString (n : Nat) : String := ⟨natDigits n⟩

/-- Decimal string of an integer. -/
def intToString (i : Int) : String :=
  if i < 0 then "-" ++ natToString i.natAbs else natToString i.toNat

/-- Numeric value of one decimal digit character. -/
def digitVal (c : Char) : Nat := c.toNat - 48

/-- Value of a big-endian list of decimal digit characters. -/
def charsVal (cs : List Char) : Nat :=
  cs.foldl (fun n c => n * 10 + digitVal c) 0

/-- Parse a non-empty all-digit string as a natural number; models parsing a
decimal unsigned integer from a string on the Rust side. -/
def parseDecimal (s : String) : Option Nat :=
  let cs := s.data
  if cs.isEmpty then none
  else if cs.all (fun c => c.isDigit) then some (charsVal cs) else none

/-- Model of Rust `str::parse::<u16>`: an optional leading plus sign, then a
non-empty digit string whose value fits in sixteen bits. -/
def parseU16 (s : String) : Option Nat :=
  let cs :=
    match s.data with
    | '+' :: rest => rest
    | cs => cs
  if cs.isEmpty then none
  else if cs.all (fun c => c.isDigit) then
    let n := charsVal cs
    if n < 65536 then some n else none
  else none

/-- The build-time protocol variant.  Modelled from the spec: the two cargo
features `v1` and `v2` of this crate are mutually exclusive by build (the
feature gating lives outside this source file); exactly one variant schema is
compiled in, so the variant is a closed two-value selector. -/
inductive Variant
  | v1
  | v2
deriving DecidableEq

/-- Submatches of a subcommand as parsed by clap (only the `receive`
subcommand's flags are ever read; other subcommands ignore theirs).  String
fields hold the textual form of the flag value; `max_fee_rate` is already
parsed by clap into a fee rate, modelled as sats per kwu. -/
structure ReceiveMatches where
  port : Option String
  pj_endpoint : Option String
  pj_directory : Option String
  ohttp_keys : Option String
  max_fee_rate : Option Nat
deriving DecidableEq

/-- Top-level clap `ArgMatches` as read by `Config::new`: each flag is present
or absent, and there may be a parsed subcommand with its own matches. -/
structure ArgMatches where
  rpchost : Option String
  cookie_file : Option String
  rpcuser : Option String
  rpcpassword : Option String
  db_path : Option String
  ohttp_relay : Option String
  subcommand : Option (String × ReceiveMatches)
deriving DecidableEq

/-- The single error kind of the resolver (`config::ConfigError`): a missing
required key, or a message carrying a human-readable cause. -/
inductive ConfigError
  | notFound (k : String)
  | message (s : String)
deriving DecidableEq

/-- Outcome of a run of code that can also reach `unreachable` and abort the
process: distinguishes a normal value, a returned `ConfigError`, and a
loud abort of the process (the fallthrough branch of `handle_subcommands`). -/
inductive RunResult (α : Type)
  | ok (a : α)
  | err (e : ConfigError)
  | panicked
deriving DecidableEq

/-- Decoded key bundle.  Modelled from the spec: `payjoin::OhttpKeys` is an
external opaque typed structure decoded from a fixed binary format; this core
only orchestrates read + decode, so its content is irrelevant here. -/
structure OhttpKeys where
  bytes : List Nat
deriving DecidableEq

/-- Model of the file system seen by `std::fs::read`: a path either yields
the file's bytes or an I/O failure reason. -/
def FileSystem := String → Except String (List Nat)

/-- Model of the external key-bundle decoder `payjoin::OhttpKeys::decode`:
bytes either decode to a bundle or yield a decode failure reason. -/
def Decoder := List Nat → Except String OhttpKeys

/-- Embedding of `add_bitcoind_defaults`: defaults and CLI overrides for the
Bitcoin RPC connection settings. -/
def add_bitcoind_defaults (b : Builder) (m : ArgMatches) : Builder :=
  set_override_option
    (set_default
      (set_override_option
        (set_default
          (set_override_option
            (set_default
              (set_override_option
                (set_default b "bitcoind.rpchost" (CValue.str "http://localhost:18443"))
                "bitcoind.rpchost" (m.rpchost.map CValue.str))
              "bitcoind.cookie" CValue.nil)
            "bitcoind.cookie" (m.cookie_file.map CValue.str))
          "bitcoind.rpcuser" (CValue.str "bitcoin"))
        "bitcoind.rpcuser" (m.rpcuser.map CValue.str))
      "bitcoind.rpcpassword" (CValue.str ""))
    "bitcoind.rpcpassword" (m.rpcpassword.map CValue.str)

/-- Storage-path default.  Modelled from the spec: `db::DB_PATH` comes from
the external storage module (not part of this core); only its existence as a
compiled-in default matters here, not its exact text. -/
def DB_PATH : String := "payjoin_db"

/-- Embedding of `add_common_defaults`: default and CLI override for the
database path shared between the two variants. -/
def add_common_defaults (b : Builder) (m : ArgMatches) : Builder :=
  set_override_option
    (set_default b "db_path" (CValue.str DB_PATH))
    "db_path" (m.db_path.map CValue.str)

/-- Embedding of `add_v1_defaults`: seeds the v1 port and advertised endpoint
defaults; no CLI overrides here. -/
def add_v1_defaults (b : Builder) : Builder :=
  set_default
    (set_default b "v1.port" (CValue.int 3000))
    "v1.pj_endpoint" (CValue.str "https://localhost:3000")

/-- Embedding of `add_v2_defaults`: CLI override for the relay URL (no
default for it), default directory URL, default nil key bundle. -/
def add_v2_defaults (b : Builder) (m : ArgMatches) : Builder :=
  set_default
    (set_default
      (set_override_option b "v2.ohttp_relay" (m.ohttp_relay.map CValue.str))
      "v2.pj_directory" (CValue.str "https://payjo.in"))
    "v2.ohttp_keys" CValue.nil

/-- Error text produced when the port flag does not parse as a sixteen-bit
unsigned integer. -/
def portErrorMessage : String := "\"port\" must be a valid number"

/-- Embedding of `handle_receive_command`: under the v1 build (the feature
`v2` absent) parse the port string as a `u16` (failure is a `ConfigError`)
and apply the port and advertised-endpoint overrides; under the v2 build
apply the directory and key-bundle-path overrides. -/
def handle_receive_command (variant : Variant) (b : Builder) (rm : ReceiveMatches) :
    Except ConfigError Builder :=
  match variant with
  | .v1 =>
    match rm.port with
    | none =>
      Except.ok (set_override_option
        (set_override_option b "v1.port" none)
        "v1.pj_endpoint" (rm.pj_endpoint.map CValue.str))
    | some s =>
      match parseU16 s with
      | none => Except.error (ConfigError.message portErrorMessage)
      | some n =>
        Except.ok (set_override_option
          (set_override_option b "v1.port" (some (CValue.int (Int.ofNat n))))
          "v1.pj_endpoint" (rm.pj_endpoint.map CValue.str))
  | .v2 =>
    Except.ok (set_override_option
      (set_override_option b "v2.pj_directory" (rm.pj_directory.map CValue.str))
      "v2.ohttp_keys" (rm.ohttp_keys.map CValue.str))

/-- Embedding of `handle_subcommands`: `send` passes the builder through
unchanged, `receive` applies the receive overrides and then the fee-rate
ceiling override (the fee rate is stringified first), `resume` exists only
in v2 builds and passes the builder through, and every other subcommand
value (including no subcommand) reaches the `unreachable` fallthrough and
aborts the process. -/
def handle_subcommands (variant : Variant) (b : Builder) (m : ArgMatches) :
    RunResult Builder :=
  match m.subcommand with
  | some ("send", _) => RunResult.ok b
  | some ("receive", rm) =>
    match handle_receive_command variant b rm with
    | .error e => RunResult.err e
    | .ok b2 =>
      RunResult.ok (set_override_option b2 "max_fee_rate"
        (rm.max_fee_rate.map (fun f => CValue.str (natToString f))))
  | some ("resume", _) =>
    match variant with
    | .v2 => RunResult.ok b
    | .v1 => RunResult.panicked
  | _ => RunResult.panicked

/-- Embedding of `deserialize_ohttp_keys_from_path`: an absent or nil path
yields `none` without touching the file system; a present path is read (an
I/O failure becomes a `ConfigError` wrapping the I/O reason) and decoded (a
decode failure becomes a `ConfigError` wrapping the decode reason); success
yields the decoded bundle.  An integer value is coerced to its decimal string
first, as the `config` crate does for string-typed fields. -/
def deserialize_ohttp_keys_from_path (fs : FileSystem) (decode : Decoder)
    (v : Option CValue) : Except ConfigError (Option OhttpKeys) :=
  match v with
  | none => Except.ok none
  | some CValue.nil => Except.ok none
  | some (CValue.int i) => readAndDecode fs decode (intToString i)
  | some (CValue.str path) => readAndDecode fs decode path
where
  /-- Read the bundle file and decode its bytes, wrapping each failure. -/
  readAndDecode (fs : FileSystem) (decode : Decoder) (path : String) :
      Except ConfigError (Option OhttpKeys) :=
    match fs path with
    | .error e => Except.error (ConfigError.message ("Failed to read ohttp_keys file: " ++ e))
    | .ok bytes =>
      match decode bytes with
      | .error e => Except.error (ConfigError.message ("Failed to decode ohttp keys: " ++ e))
      | .ok keys => Except.ok (some keys)

/-- Deserialize a required string-typed field (URL, path, user name,
password): absence of the key is a missing-field error, nil is a type error,
and an integer is coerced to its decimal string. -/
def requireString (k : String) (v : Option CValue) : Except ConfigError String :=
  match v with
  | none => Except.error (ConfigError.notFound k)
  | some CValue.nil => Except.error (ConfigError.message ("invalid type for " ++ k))
  | some (CValue.str s) => Except.ok s
  | some (CValue.int i) => Except.ok (intToString i)

/-- Deserialize an optional string-typed field (the cookie path): absence and
nil both yield `none`. -/
def optionalString (v : Option CValue) : Except ConfigError (Option String) :=
  match v with
  | none => Except.ok none
  | some CValue.nil => Except.ok none
  | some (CValue.str s) => Except.ok (some s)
  | some (CValue.int i) => Except.ok (some (intToString i))

/-- Deserialize the sixteen-bit port field: an integer must fit in sixteen
bits, a string must parse as a decimal number fitting in sixteen bits. -/
def deserializeU16 (k : String) (v : Option CValue) : Except ConfigError Nat :=
  match v with
  | none => Except.error (ConfigError.notFound k)
  | some CValue.nil => Except.error (ConfigError.message ("invalid type for " ++ k))
  | some (CValue.int i) =>
    if 0 ≤ i ∧ i < 65536 then Except.ok i.toNat
    else Except.error (ConfigError.message ("invalid value for " ++ k))
  | some (CValue.str s) =>
    match parseDecimal s with
    | some n =>
      if n < 65536 then Except.ok n
      else Except.error (ConfigError.message ("invalid value for " ++ k))
    | none => Except.error (ConfigError.message ("invalid value for " ++ k))

/-- Deserialize the optional fee-rate ceiling.  Modelled from the spec at the
boundary to the external fee-rate type: the fee rate is an unsigned integer
(sats per kwu) that deserializes from an integer value or from its decimal
string form; absence or nil yields `none`. -/
def deserializeFeeRate (v : Option CValue) : Except ConfigError (Option Nat) :=
  match v with
  | none => Except.ok none
  | some CValue.nil => Except.ok none
  | some (CValue.int i) =>
    if 0 ≤ i then Except.ok (some i.toNat)
    else Except.error (ConfigError.message "invalid value for max_fee_rate")
  | some (CValue.str s) =>
    match parseDecimal s with
    | some n => Except.ok (some n)
    | none => Except.error (ConfigError.message "invalid value for max_fee_rate")

/-- Embedding of the `BitcoindConfig` struct. -/
structure BitcoindConfig where
  rpchost : String
  cookie : Option String
  rpcuser : String
  rpcpassword : String
deriving DecidableEq

/-- Embedding of the `V1Config` struct. -/
structure V1Config where
  port : Nat
  pj_endpoint : String
deriving DecidableEq

/-- Embedding of the `V2Config` struct. -/
structure V2Config where
  ohttp_keys : Option OhttpKeys
  ohttp_relay : String
  pj_directory : String
deriving DecidableEq

/-- The variant-specific part of a resolved config.  Modelled from the spec:
the two cargo features are mutually exclusive by build, so a resolved config
carries exactly one of the two variant sub-structures, a closed sum. -/
inductive VariantConfig
  | v1 (c : V1Config)
  | v2 (c : V2Config)
deriving DecidableEq

/-- Embedding of the resolved `Config` struct. -/
structure Config where
  db_path : String
  max_fee_rate : Option Nat
  bitcoind : BitcoindConfig
  variant : VariantConfig
deriving DecidableEq

/-- Embedding of `config.try_deserialize::<Config>()` over the flattened
key view: typed coercion field by field, with the custom key-bundle decode
step for the v2 key-bundle field. -/
def tryDeserialize (variant : Variant) (fs : FileSystem) (decode : Decoder)
    (flat : String → Option CValue) : Except ConfigError Config :=
  match requireString "db_path" (flat "db_path") with
  | .error e => Except.error e
  | .ok db_path =>
  match deserializeFeeRate (flat "max_fee_rate") with
  | .error e => Except.error e
  | .ok max_fee_rate =>
  match requireString "bitcoind.rpchost" (flat "bitcoind.rpchost") with
  | .error e => Except.error e
  | .ok rpchost =>
  match optionalString (flat "bitcoind.cookie") with
  | .error e => Except.error e
  | .ok cookie =>
  match requireString "bitcoind.rpcuser" (flat "bitcoind.rpcuser") with
  | .error e => Except.error e
  | .ok rpcuser =>
  match requireString "bitcoind.rpcpassword" (flat "bitcoind.rpcpassword") with
  | .error e => Except.error e
  | .ok rpcpassword =>
  match variant with
  | .v1 =>
    match deserializeU16 "v1.port" (flat "v1.port") with
    | .error e => Except.error e
    | .ok port =>
    match requireString "v1.pj_endpoint" (flat "v1.pj_endpoint") with
    | .error e => Except.error e
    | .ok pj_endpoint =>
      Except.ok
        { db_path := db_path, max_fee_rate := max_fee_rate,
          bitcoind := ⟨rpchost, cookie, rpcuser, rpcpassword⟩,
          variant := VariantConfig.v1 ⟨port, pj_endpoint⟩ }
  | .v2 =>
    match deserialize_ohttp_keys_from_path fs decode (flat "v2.ohttp_keys") with
    | .error e => Except.error e
    | .ok keys =>
    match requireString "v2.ohttp_relay" (flat "v2.ohttp_relay") with
    | .error e => Except.error e
    | .ok relay =>
    match requireString "v2.pj_directory" (flat "v2.pj_directory") with
    | .error e => Except.error e
    | .ok directory =>
      Except.ok
        { db_path := db_path, max_fee_rate := max_fee_rate,
          bitcoind := ⟨rpchost, cookie, rpcuser, rpcpassword⟩,
          variant := VariantConfig.v2 ⟨keys, relay, directory⟩ }

/-- The builder accumulated by `Config::new` before the subcommand stage:
bitcoind defaults and overrides, common defaults and overrides, then the
defaults of the active variant. -/
def baseBuilder (variant : Variant) (m : ArgMatches) : Builder :=
  match variant with
  | .v1 => add_v1_defaults (add_common_defaults (add_bitcoind_defaults Builder.empty m) m)
  | .v2 => add_v2_defaults (add_common_defaults (add_bitcoind_defaults Builder.empty m) m) m

/-- Lift the deserialization outcome into the run outcome. -/
def exceptToRun : Except ConfigError Config → RunResult Config
  | .error e => RunResult.err e
  | .ok c => RunResult.ok c

/-- Resolution from the three base layers only (defaults, file, explicit
base-layer CLI flags), with no subcommand stage. -/
def resolveBase (variant : Variant) (m : ArgMatches) (file : Layer)
    (fs : FileSystem) (decode : Decoder) : Except ConfigError Config :=
  tryDeserialize variant fs decode (resolvedValue (baseBuilder variant m) file)

/-- Embedding of `Config::new`: accumulate the base layers, apply the
subcommand overrides, add the optional `config.toml` file source (an absent
file is the empty layer), then build and deserialize. -/
def Config.new (variant : Variant) (m : ArgMatches) (file : Layer)
    (fs : FileSystem) (decode : Decoder) : RunResult Config :=
  match handle_subcommands variant (baseBuilder variant m) m with
  | .panicked => RunResult.panicked
  | .err e => RunResult.err e
  | .ok b => exceptToRun (tryDeserialize variant fs decode (resolvedValue b file))

/-- Receive submatches with every flag omitted. -/
def emptySub : ReceiveMatches := ⟨none, none, none, none, none⟩

/-- Top-level matches with every flag omitted and no subcommand. -/
def noFlags : ArgMatches := ⟨none, none, none, none, none, none, none⟩

/-- Matches for a bare `send` invocation. -/
def sendMatches : ArgMatches := { noFlags with subcommand := some ("send", emptySub) }

/-- Matches for a `receive` invocation with the given submatches. -/
def recvMatches (rm : ReceiveMatches) : ArgMatches :=
  { noFlags with subcommand := some ("receive", rm) }

/-- Supply the relay flag on top of existing matches. -/
def withRelay (m : ArgMatches) (u : String) : ArgMatches := { m with ohttp_relay := some u }

/-- The RPC connection settings produced when every layer above the defaults
is silent. -/
def bitcoindDefaultConfig : BitcoindConfig := ⟨"http://localhost:18443", none, "bitcoin", ""⟩

/-- A file system on which every read fails. -/
def fsEmpty : FileSystem := fun _ => Except.error "no such file"

/-- A decoder that accepts any byte sequence. -/
def decodeAny : Decoder := fun bs => Except.ok ⟨bs⟩

/-- File layer of a `config.toml` setting only `v1.port = 4000`. -/
def file4000 : Layer := [("v1.port", CValue.int 4000)]

/-- Matches for a bare `resume` invocation. -/
def resumeMatches : ArgMatches := { noFlags with subcommand := some ("resume", emptySub) }

/-- The config resolved by a bare v1 `send` run with no file. -/
def v1DefaultConfig : Config :=
  ⟨DB_PATH, none, bitcoindDefaultConfig, VariantConfig.v1 ⟨3000, "https://localhost:3000"⟩⟩

/-- A small file system: the path `good` holds a decodable bundle, the path
`bad` holds bytes the decoder rejects, and every other path fails to read. -/
def fsW : FileSystem := fun p =>
  if p = "good" then Except.ok [1] else
  if p = "bad" then Except.ok [9] else Except.error "io"

/-- A decoder accepting exactly the byte sequence stored at `good`. -/
def decodeW : Decoder := fun bs =>
  if bs = [1] then Except.ok ⟨[1]⟩ else Except.error "fmt"

/-- Value of a decimal digit character made from a digit below ten. -/
theorem decDigitChar_val (d : Nat) (h : d < 10) : digitVal (decDigitChar d) = d := by
  interval_cases d <;> rfl

/-- A decimal digit character made from a digit below ten is a digit. -/
theorem decDigitChar_isDigit (d : Nat) (h : d < 10) : (decDigitChar d).isDigit = true := by
  interval_cases d <;> rfl

/-- Appending one digit multiplies the numeric value by ten and adds it. -/
theorem charsVal_append_singleton (xs : List Char) (c : Char) :
    charsVal (xs ++ [c]) = charsVal xs * 10 + digitVal c := by
  simp [charsVal, List.foldl_append]

/-- The digit producer only conses onto its accumulator. -/
theorem natDigitsCore_acc (fuel : Nat) : ∀ (n : Nat) (ds : List Char),
    natDigitsCore fuel n ds = natDigitsCore fuel n [] ++ ds := by
  induction fuel with
  | zero => intro n ds; rfl
  | succ fuel ih =>
    intro n ds
    simp only [natDigitsCore]
    by_cases h : n / 10 = 0
    · simp [h]
    · simp only [h, if_neg, ite_false]
      rw [ih (n / 10) (decDigitChar (n % 10) :: ds), ih (n / 10) [decDigitChar (n % 10)]]
      simp

/-- One unfolding step of the digit producer. -/
theorem natDigitsCore_succ (fuel n : Nat) (ds : List Char) :
    natDigitsCore (fuel + 1) n ds =
      if n / 10 = 0 then decDigitChar (n % 10) :: ds
      else natDigitsCore fuel (n / 10) (decDigitChar (n % 10) :: ds) := rfl

/-- With enough fuel the produced digit string evaluates back to the number. -/
theorem charsVal_natDigitsCore (fuel : Nat) : ∀ n : Nat, n < 10 ^ (fuel + 1) →
    charsVal (natDigitsCore (fuel + 1) n []) = n := by
  induction fuel with
  | zero =>
    intro n h
    have h10 : n < 10 := by simpa using h
    have hdiv : n / 10 = 0 := Nat.div_eq_of_lt h10
    have hmod : n % 10 = n := Nat.mod_eq_of_lt h10
    simp [natDigitsCore, hdiv, hmod, charsVal, decDigitChar_val n h10]
  | succ fuel ih =>
    intro n h
    rw [natDigitsCore_succ]
    by_cases hdiv : n / 10 = 0
    · have h10 : n < 10 := by omega
      have hmod : n % 10 = n := Nat.mod_eq_of_lt h10
      simp [hdiv, hmod, charsVal, decDigitChar_val n h10]
    · rw [if_neg hdiv, natDigitsCore_acc, charsVal_append_singleton]
      have hlt : n / 10 < 10 ^ (fuel + 1) := by
        have hp : (10 : Nat) ^ (fuel + 1 + 1) = 10 ^ (fuel + 1) * 10 := by ring
        exact (Nat.div_lt_iff_lt_mul (by norm_num)).2 (by omega)
      rw [ih (n / 10) hlt, decDigitChar_val (n % 10) (Nat.mod_lt n (by norm_num))]
      omega

/-- The decimal digit string of a number evaluates back to the number. -/
theorem charsVal_natDigits (n : Nat) : charsVal (natDigits n) = n := by
  have h : n < 10 ^ (n + 1) := by
    calc n < 2 ^ n := Nat.lt_two_pow n
    _ ≤ 10 ^ n := Nat.pow_le_pow_left (by norm_num) n
    _ ≤ 10 ^ (n + 1) := Nat.pow_le_pow_right (by norm_num) (by omega)
  exact charsVal_natDigitsCore n n h

/-- Digit production preserves all-digits character lists. -/
theorem natDigitsCore_digits (fuel : Nat) : ∀ (n : Nat) (ds : List Char),
    ds.all (fun c => c.isDigit) = true →
    (natDigitsCore fuel n ds).all (fun c => c.isDigit) = true := by
  induction fuel with
  | zero => intro n ds h; exact h
  | succ fuel ih =>
    intro n ds h
    have hd : (decDigitChar (n % 10)).isDigit = true :=
      decDigitChar_isDigit _ (Nat.mod_lt n (by norm_num))
    simp only [natDigitsCore]
    by_cases hdiv : n / 10 = 0
    · simp [hdiv, hd, h]
    · simp only [hdiv, if_neg, ite_false]
      exact ih _ _ (by simp [hd, h])

/-- The digit producer never returns the empty list when given fuel. -/
theorem natDigitsCore_ne_nil (fuel : Nat) : ∀ (n : Nat) (ds : List Char),
    natDigitsCore (fuel + 1) n ds ≠ [] := by
  induction fuel with
  | zero =>
    intro n ds
    simp only [natDigitsCore]
    split <;> simp
  | succ fuel ih =>
    intro n ds
    simp only [natDigitsCore]
    by_cases h : n / 10 = 0
    · simp [h]
    · simp only [h, if_neg, ite_false]
      exact ih _ _

/-- Round trip: printing a natural number in decimal and parsing the string
back yields the same number. -/
theorem parseDecimal_natToString (n : Nat) : parseDecimal (natToString n) = some n := by
  have hne : natDigits n ≠ [] := natDigitsCore_ne_nil n n []
  obtain ⟨c, cs, hcons⟩ := List.exists_cons_of_ne_nil hne
  have hemp : (natDigits n).isEmpty = false := by rw [hcons]; rfl
  have hall : (natDigits n).all (fun c => c.isDigit) = true :=
    natDigitsCore_digits (n + 1) n [] rfl
  have hval := charsVal_natDigits n
  show (if (natDigits n).isEmpty then none
    else if (natDigits n).all (fun c => c.isDigit) then some (charsVal (natDigits n)) else none) =
    some n
  rw [hemp, hall, hval]
  rfl

/-- Looking up the key just pushed onto a layer finds its value. -/
theorem Layer.get_cons_self (l : Layer) (k : String) (v : CValue) :
    Layer.get ((k, v) :: l) k = some v := by
  simp [Layer.get, List.find?]

/-- Looking up a different key skips the pushed binding. -/
theorem Layer.get_cons_ne (l : Layer) (k k2 : String) (v : CValue) (h : k ≠ k2) :
    Layer.get ((k, v) :: l) k2 = Layer.get l k2 := by
  simp [Layer.get, List.find?, h]

/-- An omitted optional override leaves the builder untouched. -/
theorem set_override_option_none_eq (b : Builder) (k : String) :
    set_override_option b k none = b := rfl

/-- Whatever else succeeds, a successful deserialization read its fee-rate
field from the flattened view of the key `max_fee_rate`. -/
theorem tryDeserialize_ok_max_fee_rate (variant : Variant) (fs : FileSystem)
    (decode : Decoder) (flat : String → Option CValue) (c : Config)
    (h : tryDeserialize variant fs decode flat = Except.ok c) :
    deserializeFeeRate (flat "max_fee_rate") = Except.ok c.max_fee_rate := by
  unfold tryDeserialize at h
  cases h1 : requireString "db_path" (flat "db_path") <;> rw [h1] at h
  case error => cases h
  cases h2 : deserializeFeeRate (flat "max_fee_rate") <;> rw [h2] at h
  case error => cases h
  cases h3 : requireString "bitcoind.rpchost" (flat "bitcoind.rpchost") <;> rw [h3] at h
  case error => cases h
  cases h4 : optionalString (flat "bitcoind.cookie") <;> rw [h4] at h
  case error => cases h
  cases h5 : requireString "bitcoind.rpcuser" (flat "bitcoind.rpcuser") <;> rw [h5] at h
  case error => cases h
  cases h6 : requireString "bitcoind.rpcpassword" (flat "bitcoind.rpcpassword") <;> rw [h6] at h
  case error => cases h
  cases variant
  case v1 =>
    cases h7 : deserializeU16 "v1.port" (flat "v1.port") <;> rw [h7] at h
    case error => cases h
    cases h8 : requireString "v1.pj_endpoint" (flat "v1.pj_endpoint") <;> rw [h8] at h
    case error => cases h
    cases h
    rfl
  case v2 =>
    cases h7 : deserialize_ohttp_keys_from_path fs decode (flat "v2.ohttp_keys") <;> rw [h7] at h
    case error => cases h
    cases h8 : requireString "v2.ohttp_relay" (flat "v2.ohttp_relay") <;> rw [h8] at h
    case error => cases h
    cases h9 : requireString "v2.pj_directory" (flat "v2.pj_directory") <;> rw [h9] at h
    case error => cases h
    cases h
    rfl

/-- Under a `receive` subcommand, `handle_subcommands` runs the receive
overrides and then the fee-rate override. -/
theorem handle_subcommands_receive (variant : Variant) (b : Builder) (m : ArgMatches)
    (rm : ReceiveMatches) (hsub : m.subcommand = some ("receive", rm)) :
    handle_subcommands variant b m =
      match handle_receive_command variant b rm with
      | .error e => RunResult.err e
      | .ok b2 => RunResult.ok (set_override_option b2 "max_fee_rate"
          (rm.max_fee_rate.map (fun f => CValue.str (natToString f)))) := by
  unfold handle_subcommands
  rw [hsub]
  rfl

/-- Under a `send` subcommand, `handle_subcommands` passes the builder on. -/
theorem handle_subcommands_send (variant : Variant) (b : Builder) (m : ArgMatches)
    (rm : ReceiveMatches) (h : m.subcommand = some ("send", rm)) :
    handle_subcommands variant b m = RunResult.ok b := by
  unfold handle_subcommands
  rw [h]
  rfl

/-- Under a `resume` subcommand, `handle_subcommands` passes the builder on
in a v2 build and reaches the fallthrough in a v1 build. -/
theorem handle_subcommands_resume (variant : Variant) (b : Builder) (m : ArgMatches)
    (rm : ReceiveMatches) (h : m.subcommand = some ("resume", rm)) :
    handle_subcommands variant b m =
      match variant with
      | .v2 => RunResult.ok b
      | .v1 => RunResult.panicked := by
  unfold handle_subcommands
  rw [h]
  rfl

/-- Any subcommand name outside the closed set reaches the fallthrough. -/
theorem handle_subcommands_other (variant : Variant) (b : Builder) (m : ArgMatches)
    (nm : String) (rm : ReceiveMatches) (h : m.subcommand = some (nm, rm))
    (h1 : nm ≠ "send") (h2 : nm ≠ "receive") (h3 : nm ≠ "resume") :
    handle_subcommands variant b m = RunResult.panicked := by
  unfold handle_subcommands
  rw [h]
  split <;> simp_all

/-- With no subcommand at all, `handle_subcommands` reaches the fallthrough. -/
theorem handle_subcommands_none (variant : Variant) (b : Builder) (m : ArgMatches)
    (h : m.subcommand = none) :
    handle_subcommands variant b m = RunResult.panicked := by
  unfold handle_subcommands
  rw [h]

/-- C1: the resolved value of any key equals the value from the
highest-precedence layer that defines it, with precedence
default < file < CLI/subcommand override; in particular, with the default
port 3000, a file setting the port to 4000 and no CLI port flag for
`receive`, the resolved port is 4000, and additionally supplying a port of
5000 on the command line makes the resolved port 5000. -/
theorem c1_layer_precedence :
    (∀ (b : Builder) (file : Layer) (k : String) (v : CValue),
      Layer.get b.overrides k = some v → resolvedValue b file k = some v)
    ∧ (∀ (b : Builder) (file : Layer) (k : String) (v : CValue),
      Layer.get b.overrides k = none → Layer.get file k = some v →
        resolvedValue b file k = some v)
    ∧ (∀ (b : Builder) (file : Layer) (k : String),
      Layer.get b.overrides k = none → Layer.get file k = none →
        resolvedValue b file k = Layer.get b.defaults k)
    ∧ (∀ (fs : FileSystem) (decode : Decoder),
      Config.new Variant.v1 (recvMatches emptySub) file4000 fs decode =
        RunResult.ok ⟨DB_PATH, none, bitcoindDefaultConfig,
          VariantConfig.v1 ⟨4000, "https://localhost:3000"⟩⟩)
    ∧ (∀ (fs : FileSystem) (decode : Decoder),
      Config.new Variant.v1 (recvMatches { emptySub with port := some "5000" })
          file4000 fs decode =
        RunResult.ok ⟨DB_PATH, none, bitcoindDefaultConfig,
          VariantConfig.v1 ⟨5000, "https://localhost:3000"⟩⟩) := by
  refine ⟨?_, ?_, ?_, fun _ _ => rfl, fun _ _ => rfl⟩
  · intro b file k v h
    simp [resolvedValue, h]
  · intro b file k v h1 h2
    simp [resolvedValue, h1, h2]
  · intro b file k h1 h2
    simp [resolvedValue, h1, h2]

/-- Witness for C1 at concrete layers: an override beats file and default, a
file value beats a default, and the default stands when it is alone. -/
theorem c1_layer_precedence_witness :
    resolvedValue ⟨[("p", CValue.int 1)], [("p", CValue.int 3)]⟩ [("p", CValue.int 2)] "p" =
      some (CValue.int 3)
    ∧ resolvedValue ⟨[("p", CValue.int 1)], []⟩ [("p", CValue.int 2)] "p" =
      some (CValue.int 2)
    ∧ resolvedValue ⟨[("p", CValue.int 1)], []⟩ [] "p" =
      Layer.get (Builder.defaults ⟨[("p", CValue.int 1)], []⟩) "p" :=
  ⟨c1_layer_precedence.1 _ _ _ _ rfl,
   c1_layer_precedence.2.1 _ _ _ _ rfl rfl,
   c1_layer_precedence.2.2.1 _ _ _ rfl rfl⟩

/-- C2: the key-bundle field resolves to absent without file I/O when no
path is present (the outcome is the same for every file system), fails with
a configuration error wrapping the I/O reason when the read fails, fails
with a configuration error wrapping the decode reason when the decode fails,
and resolves to the decoded bundle when both succeed. -/
theorem c2_ohttp_keys_resolution :
    ∀ (fs : FileSystem) (decode : Decoder),
      (deserialize_ohttp_keys_from_path fs decode none = Except.ok none)
      ∧ (deserialize_ohttp_keys_from_path fs decode (some CValue.nil) = Except.ok none)
      ∧ (∀ p e, fs p = Except.error e →
        deserialize_ohttp_keys_from_path fs decode (some (CValue.str p)) =
          Except.error (ConfigError.message ("Failed to read ohttp_keys file: " ++ e)))
      ∧ (∀ p bs e, fs p = Except.ok bs → decode bs = Except.error e →
        deserialize_ohttp_keys_from_path fs decode (some (CValue.str p)) =
          Except.error (ConfigError.message ("Failed to decode ohttp keys: " ++ e)))
      ∧ (∀ p bs kk, fs p = Except.ok bs → decode bs = Except.ok kk →
        deserialize_ohttp_keys_from_path fs decode (some (CValue.str p)) =
          Except.ok (some kk)) := by
  intro fs decode
  refine ⟨rfl, rfl, ?_, ?_, ?_⟩
  · intro p e h
    simp [deserialize_ohttp_keys_from_path, deserialize_ohttp_keys_from_path.readAndDecode, h]
  · intro p bs e h1 h2
    simp [deserialize_ohttp_keys_from_path, deserialize_ohttp_keys_from_path.readAndDecode,
      h1, h2]
  · intro p bs kk h1 h2
    simp [deserialize_ohttp_keys_from_path, deserialize_ohttp_keys_from_path.readAndDecode,
      h1, h2]

/-- Witness for C2 on a concrete file system and decoder: a missing file, a
file with undecodable bytes, and a readable decodable file. -/
theorem c2_ohttp_keys_resolution_witness :
    deserialize_ohttp_keys_from_path fsW decodeW none = Except.ok none
    ∧ deserialize_ohttp_keys_from_path fsW decodeW (some CValue.nil) = Except.ok none
    ∧ deserialize_ohttp_keys_from_path fsW decodeW (some (CValue.str "nope")) =
      Except.error (ConfigError.message ("Failed to read ohttp_keys file: " ++ "io"))
    ∧ deserialize_ohttp_keys_from_path fsW decodeW (some (CValue.str "bad")) =
      Except.error (ConfigError.message ("Failed to decode ohttp keys: " ++ "fmt"))
    ∧ deserialize_ohttp_keys_from_path fsW decodeW (some (CValue.str "good")) =
      Except.ok (some ⟨[1]⟩) :=
  ⟨(c2_ohttp_keys_resolution fsW decodeW).1,
   (c2_ohttp_keys_resolution fsW decodeW).2.1,
   (c2_ohttp_keys_resolution fsW decodeW).2.2.1 "nope" "io" rfl,
   (c2_ohttp_keys_resolution fsW decodeW).2.2.2.1 "bad" [9] "fmt" rfl rfl,
   (c2_ohttp_keys_resolution fsW decodeW).2.2.2.2 "good" [1] ⟨[1]⟩ rfl rfl⟩

/-- C3: every successfully built config contains exactly one of the two
variant sub-structures, never both and never neither, for either build
variant. -/
theorem c3_exactly_one_variant :
    ∀ (variant : Variant) (m : ArgMatches) (file : Layer) (fs : FileSystem)
      (decode : Decoder) (c : Config),
      Config.new variant m file fs decode = RunResult.ok c →
      ((∃ a, c.variant = VariantConfig.v1 a) ∨ (∃ a, c.variant = VariantConfig.v2 a))
      ∧ ¬((∃ a, c.variant = VariantConfig.v1 a) ∧ (∃ a, c.variant = VariantConfig.v2 a)) := by
  intro variant m file fs decode c _h
  rcases hv : c.variant with a | a
  · exact ⟨Or.inl ⟨a, rfl⟩, fun ⟨_, ⟨y, hy⟩⟩ => by cases hy⟩
  · exact ⟨Or.inr ⟨a, rfl⟩, fun ⟨⟨x, hx⟩, _⟩ => by cases hx⟩

/-- Witness for C3 at a successful concrete v1 run. -/
theorem c3_exactly_one_variant_witness :
    ((∃ a, v1DefaultConfig.variant = VariantConfig.v1 a)
      ∨ (∃ a, v1DefaultConfig.variant = VariantConfig.v2 a))
    ∧ ¬((∃ a, v1DefaultConfig.variant = VariantConfig.v1 a)
      ∧ (∃ a, v1DefaultConfig.variant = VariantConfig.v2 a)) :=
  c3_exactly_one_variant Variant.v1 sendMatches [] fsEmpty decodeAny v1DefaultConfig rfl

/-- C4: with subcommand `send`, `receive`, or (in v2 builds) `resume`,
`handle_subcommands` never reaches its fallthrough branch; any other
subcommand value, including no subcommand at all and `resume` under a v1
build, aborts the process loudly instead of returning a `ConfigError` or
silently defaulting. -/
theorem c4_subcommand_exhaustive :
    ∀ (variant : Variant) (b : Builder) (m : ArgMatches),
      (∀ rm, m.subcommand = some ("send", rm) →
        handle_subcommands variant b m ≠ RunResult.panicked)
      ∧ (∀ rm, m.subcommand = some ("receive", rm) →
        handle_subcommands variant b m ≠ RunResult.panicked)
      ∧ (∀ rm, variant = Variant.v2 → m.subcommand = some ("resume", rm) →
        handle_subcommands variant b m ≠ RunResult.panicked)
      ∧ (m.subcommand = none → handle_subcommands variant b m = RunResult.panicked)
      ∧ (∀ nm rm, m.subcommand = some (nm, rm) → nm ≠ "send" → nm ≠ "receive" →
        nm ≠ "resume" → handle_subcommands variant b m = RunResult.panicked)
      ∧ (∀ rm, variant = Variant.v1 → m.subcommand = some ("resume", rm) →
        handle_subcommands variant b m = RunResult.panicked) := by
  intro variant b m
  refine ⟨?_, ?_, ?_, ?_, ?_, ?_⟩
  · intro rm h
    rw [handle_subcommands_send variant b m rm h]
    simp
  · intro rm h
    rw [handle_subcommands_receive variant b m rm h]
    cases handle_receive_command variant b rm <;> simp
  · intro rm hv h
    subst hv
    rw [handle_subcommands_resume Variant.v2 b m rm h]
    simp
  · intro h
    exact handle_subcommands_none variant b m h
  · intro nm rm h h1 h2 h3
    exact handle_subcommands_other variant b m nm rm h h1 h2 h3
  · intro rm hv h
    subst hv
    rw [handle_subcommands_resume Variant.v1 b m rm h]

/-- Witness for C4 at concrete inputs: `send` does not fall through, a
misspelled subcommand falls through, no subcommand falls through, and
`resume` under a v1 build falls through. -/
theorem c4_subcommand_exhaustive_witness :
    handle_subcommands Variant.v1 Builder.empty sendMatches ≠ RunResult.panicked
    ∧ handle_subcommands Variant.v1 Builder.empty
        { noFlags with subcommand := some ("sned", emptySub) } = RunResult.panicked
    ∧ handle_subcommands Variant.v1 Builder.empty noFlags = RunResult.panicked
    ∧ handle_subcommands Variant.v1 Builder.empty resumeMatches = RunResult.panicked :=
  ⟨(c4_subcommand_exhaustive Variant.v1 Builder.empty sendMatches).1 emptySub rfl,
   (c4_subcommand_exhaustive Variant.v1 Builder.empty _).2.2.2.2.1 "sned" emptySub rfl
     (by decide) (by decide) (by decide),
   (c4_subcommand_exhaustive Variant.v1 Builder.empty noFlags).2.2.2.1 rfl,
   (c4_subcommand_exhaustive Variant.v1 Builder.empty resumeMatches).2.2.2.2.2 emptySub
     rfl rfl⟩

/-- C5: under the v1 variant, a supplied port string that does not parse as
an unsigned sixteen-bit integer makes `handle_receive_command` return a
user-facing `ConfigError` (its return type leaves no room for a panic on
malformed input), while a string that parses is applied as an override of
the key `v1.port`. -/
theorem c5_port_parse :
    ∀ (b : Builder) (rm : ReceiveMatches) (s : String), rm.port = some s →
      (parseU16 s = none →
        handle_receive_command Variant.v1 b rm =
          Except.error (ConfigError.message portErrorMessage))
      ∧ (∀ n, parseU16 s = some n →
        ∃ b2, handle_receive_command Variant.v1 b rm = Except.ok b2 ∧
          Layer.get b2.overrides "v1.port" = some (CValue.int (Int.ofNat n))) := by
  intro b rm s hs
  constructor
  · intro hp
    unfold handle_receive_command
    rw [hs]
    split <;> simp_all
  · intro n hp
    unfold handle_receive_command
    rw [hs]
    split
    next heq =>
      simp_all
      cases hpe : rm.pj_endpoint with
      | none => simp [set_override_option, Layer.get_cons_self]
      | some u =>
        have h1 : ("v1.pj_endpoint" : String) ≠ "v1.port" := by decide
        simp [set_override_option]
        rw [Layer.get_cons_ne (("v1.port", CValue.int (n : Int)) :: b.overrides)
          "v1.pj_endpoint" "v1.port" (CValue.str u) h1, Layer.get_cons_self]
    next k heq => exact absurd heq (by decide)

/-- Witness for C5 at concrete port strings: a non-numeric string is a
configuration error, and a numeric string becomes the port override. -/
theorem c5_port_parse_witness :
    handle_receive_command Variant.v1 Builder.empty { emptySub with port := some "abc" } =
      Except.error (ConfigError.message portErrorMessage)
    ∧ ∃ b2, handle_receive_command Variant.v1 Builder.empty
        { emptySub with port := some "5000" } = Except.ok b2 ∧
      Layer.get b2.overrides "v1.port" = some (CValue.int (Int.ofNat 5000)) :=
  ⟨(c5_port_parse Builder.empty { emptySub with port := some "abc" } "abc" rfl).1 rfl,
   (c5_port_parse Builder.empty { emptySub with port := some "5000" } "5000" rfl).2 5000 rfl⟩

/-- C7: setting an override with an absent optional value leaves the builder
unchanged, so every key resolves exactly as it would have without the call;
omitting a CLI flag never clobbers a file or default value. -/
theorem c7_absent_override_noop :
    ∀ (b : Builder) (k : String),
      set_override_option b k none = b
      ∧ ∀ (file : Layer) (k2 : String),
        resolvedValue (set_override_option b k none) file k2 = resolvedValue b file k2 :=
  fun _ _ => ⟨rfl, fun _ _ => rfl⟩

/-- C8: for `send` and, in v2 builds, `resume`, the subcommand stage applies
no overrides: `Config::new` produces exactly the resolution of the three
base layers (defaults, file, explicit base-layer CLI flags). -/
theorem c8_send_resume_no_overrides :
    ∀ (variant : Variant) (m : ArgMatches) (file : Layer) (fs : FileSystem)
      (decode : Decoder),
      (∀ rm, m.subcommand = some ("send", rm) →
        Config.new variant m file fs decode =
          exceptToRun (resolveBase variant m file fs decode))
      ∧ (∀ rm, variant = Variant.v2 → m.subcommand = some ("resume", rm) →
        Config.new variant m file fs decode =
          exceptToRun (resolveBase variant m file fs decode)) := by
  intro variant m file fs decode
  constructor
  · intro rm h
    unfold Config.new
    rw [handle_subcommands_send variant _ m rm h]
    rfl
  · intro rm hv h
    subst hv
    unfold Config.new
    rw [handle_subcommands_resume Variant.v2 _ m rm h]
    rfl

/-- Witness for C8 at concrete runs: a v1 `send` run and a v2 `resume` run
both equal base-layer-only resolution. -/
theorem c8_send_resume_no_overrides_witness :
    Config.new Variant.v1 sendMatches [] fsEmpty decodeAny =
      exceptToRun (resolveBase Variant.v1 sendMatches [] fsEmpty decodeAny)
    ∧ Config.new Variant.v2 resumeMatches [] fsEmpty decodeAny =
      exceptToRun (resolveBase Variant.v2 resumeMatches [] fsEmpty decodeAny) :=
  ⟨(c8_send_resume_no_overrides Variant.v1 sendMatches [] fsEmpty decodeAny).1 emptySub rfl,
   (c8_send_resume_no_overrides Variant.v2 resumeMatches [] fsEmpty decodeAny).2 emptySub
     rfl rfl⟩

/-- C9: in a v2 build the relay URL has no compiled-in default: when
neither the relay flag nor the config file supplies `v2.ohttp_relay`,
`Config::new` returns a `ConfigError` for the missing key (it neither
panics nor substitutes a default), while `v2.pj_directory` defaults to
`https://payjo.in` and `v2.ohttp_keys` defaults to absent. -/
theorem c9_relay_required :
    ∀ (fs : FileSystem) (decode : Decoder) (m : ArgMatches) (rm : ReceiveMatches),
      m.ohttp_relay = none → m.subcommand = some ("send", rm) →
      (Config.new Variant.v2 m [] fs decode =
        RunResult.err (ConfigError.notFound "v2.ohttp_relay"))
      ∧ (∀ u, ∃ c, Config.new Variant.v2 (withRelay m u) [] fs decode = RunResult.ok c ∧
          c.variant = VariantConfig.v2 ⟨none, u, "https://payjo.in"⟩) := by
  intro fs decode m rm hrel hsub
  obtain ⟨rh, cf, ru, rp, dp, rel, sub⟩ := m
  dsimp only at hrel hsub
  subst hrel
  subst hsub
  constructor
  · rcases rh with _ | a <;> rcases cf with _ | a2 <;> rcases ru with _ | a3 <;>
      rcases rp with _ | a4 <;> rcases dp with _ | a5 <;> rfl
  · rcases rh with _ | a <;> rcases cf with _ | a2 <;> rcases ru with _ | a3 <;>
      rcases rp with _ | a4 <;> rcases dp with _ | a5 <;>
      exact fun u => ⟨_, rfl, rfl⟩

/-- Witness for C9 at a bare v2 `send` run: without the relay flag
resolution fails on the missing relay key, and with it the directory and
key-bundle defaults are visible in the result. -/
theorem c9_relay_required_witness :
    Config.new Variant.v2 sendMatches [] fsEmpty decodeAny =
      RunResult.err (ConfigError.notFound "v2.ohttp_relay")
    ∧ ∃ c, Config.new Variant.v2 (withRelay sendMatches "https://relay.example") []
        fsEmpty decodeAny = RunResult.ok c ∧
      c.variant = VariantConfig.v2 ⟨none, "https://relay.example", "https://payjo.in"⟩ :=
  ⟨(c9_relay_required fsEmpty decodeAny sendMatches emptySub rfl rfl).1,
   (c9_relay_required fsEmpty decodeAny sendMatches emptySub rfl rfl).2 "https://relay.example"⟩

/-- C10: every Bitcoin RPC connection field has a compiled-in default
(rpchost `http://localhost:18443`, no cookie, user `bitcoin`, empty
password), so with no config file and no CLI flags resolution never fails on
a missing `bitcoind` key and produces exactly those values; the same
defaults appear in a v2 run that adds only the required relay flag. -/
theorem c10_bitcoind_defaults :
    (∀ (fs : FileSystem) (decode : Decoder),
      Config.new Variant.v1 sendMatches [] fs decode =
        RunResult.ok ⟨DB_PATH, none, bitcoindDefaultConfig,
          VariantConfig.v1 ⟨3000, "https://localhost:3000"⟩⟩)
    ∧ (∀ (fs : FileSystem) (decode : Decoder) (u : String),
      Config.new Variant.v2 (withRelay sendMatches u) [] fs decode =
        RunResult.ok ⟨DB_PATH, none, bitcoindDefaultConfig,
          VariantConfig.v2 ⟨none, u, "https://payjo.in"⟩⟩) :=
  ⟨fun _ _ => rfl, fun _ _ _ => rfl⟩

/-- C6: for the `receive` subcommand a supplied maximum fee rate round
trips unchanged through the stringified override and deserialization, so
the resolved config's fee-rate ceiling equals the supplied value; when the
flag is omitted the field is determined by the file layer as usual (there
is no compiled-in default for it). -/
theorem c6_max_fee_rate_roundtrip :
    (∀ (variant : Variant) (m : ArgMatches) (rm : ReceiveMatches) (file : Layer)
      (fs : FileSystem) (decode : Decoder) (f : Nat) (c : Config),
      m.subcommand = some ("receive", rm) → rm.max_fee_rate = some f →
      Config.new variant m file fs decode = RunResult.ok c →
      c.max_fee_rate = some f)
    ∧ (∀ (variant : Variant) (file : Layer) (fs : FileSystem) (decode : Decoder) (c : Config),
      Config.new variant (recvMatches emptySub) file fs decode = RunResult.ok c →
      deserializeFeeRate (Layer.get file "max_fee_rate") = Except.ok c.max_fee_rate) := by
  constructor
  · intro variant m rm file fs decode f c hsub hf h
    cases hrc : handle_receive_command variant (baseBuilder variant m) rm with
    | error e =>
      have hhs : handle_subcommands variant (baseBuilder variant m) m = RunResult.err e := by
        rw [handle_subcommands_receive variant _ m rm hsub, hrc]
      unfold Config.new at h
      rw [hhs] at h
      simp at h
    | ok b1 =>
      have hhs : handle_subcommands variant (baseBuilder variant m) m =
          RunResult.ok (set_override_option b1 "max_fee_rate"
            (some (CValue.str (natToString f)))) := by
        rw [handle_subcommands_receive variant _ m rm hsub, hrc, hf]
        rfl
      unfold Config.new at h
      rw [hhs] at h
      have h2 : exceptToRun (tryDeserialize variant fs decode
          (resolvedValue (set_override_option b1 "max_fee_rate"
            (some (CValue.str (natToString f)))) file)) = RunResult.ok c := h
      cases htd : tryDeserialize variant fs decode
          (resolvedValue (set_override_option b1 "max_fee_rate"
            (some (CValue.str (natToString f)))) file) with
      | error e =>
        rw [htd] at h2
        simp [exceptToRun] at h2
      | ok c2 =>
        rw [htd] at h2
        simp [exceptToRun] at h2
        subst h2
        have hA := tryDeserialize_ok_max_fee_rate variant fs decode _ _ htd
        have hres : resolvedValue (set_override_option b1 "max_fee_rate"
            (some (CValue.str (natToString f)))) file "max_fee_rate" =
            some (CValue.str (natToString f)) := by
          simp [resolvedValue, set_override_option, Layer.get_cons_self]
        rw [hres] at hA
        have hD : deserializeFeeRate (some (CValue.str (natToString f))) =
            Except.ok (some f) := by
          simp [deserializeFeeRate, parseDecimal_natToString]
        rw [hD] at hA
        exact (Except.ok.inj hA).symm
  · intro variant file fs decode c h
    cases variant
    case v1 =>
      have h2 : exceptToRun (tryDeserialize Variant.v1 fs decode
          (resolvedValue (baseBuilder Variant.v1 (recvMatches emptySub)) file)) =
          RunResult.ok c := h
      cases htd : tryDeserialize Variant.v1 fs decode
          (resolvedValue (baseBuilder Variant.v1 (recvMatches emptySub)) file) with
      | error e =>
        rw [htd] at h2
        simp [exceptToRun] at h2
      | ok c2 =>
        rw [htd] at h2
        simp [exceptToRun] at h2
        subst h2
        have hA := tryDeserialize_ok_max_fee_rate Variant.v1 fs decode _ _ htd
        have hres : resolvedValue (baseBuilder Variant.v1 (recvMatches emptySub)) file
            "max_fee_rate" = Layer.get file "max_fee_rate" := by
          unfold resolvedValue
          rw [show Layer.get (baseBuilder Variant.v1 (recvMatches emptySub)).overrides
            "max_fee_rate" = none from rfl]
          cases hf : Layer.get file "max_fee_rate" <;> rfl
        rw [hres] at hA
        exact hA
    case v2 =>
      have h2 : exceptToRun (tryDeserialize Variant.v2 fs decode
          (resolvedValue (baseBuilder Variant.v2 (recvMatches emptySub)) file)) =
          RunResult.ok c := h
      cases htd : tryDeserialize Variant.v2 fs decode
          (resolvedValue (baseBuilder Variant.v2 (recvMatches emptySub)) file) with
      | error e =>
        rw [htd] at h2
        simp [exceptToRun] at h2
      | ok c2 =>
        rw [htd] at h2
        simp [exceptToRun] at h2
        subst h2
        have hA := tryDeserialize_ok_max_fee_rate Variant.v2 fs decode _ _ htd
        have hres : resolvedValue (baseBuilder Variant.v2 (recvMatches emptySub)) file
            "max_fee_rate" = Layer.get file "max_fee_rate" := by
          unfold resolvedValue
          rw [show Layer.get (baseBuilder Variant.v2 (recvMatches emptySub)).overrides
            "max_fee_rate" = none from rfl]
          cases hf : Layer.get file "max_fee_rate" <;> rfl
        rw [hres] at hA
        exact hA

/-- Witness for C6 at concrete runs: a fee rate of 42 supplied to a v1
`receive` run survives to the resolved config unchanged, and an omitted fee
rate over an empty file resolves to absent. -/
theorem c6_max_fee_rate_roundtrip_witness :
    (⟨DB_PATH, some 42, bitcoindDefaultConfig,
      VariantConfig.v1 ⟨3000, "https://localhost:3000"⟩⟩ : Config).max_fee_rate = some 42
    ∧ deserializeFeeRate (Layer.get [] "max_fee_rate") =
      Except.ok v1DefaultConfig.max_fee_rate :=
  ⟨c6_max_fee_rate_roundtrip.1 Variant.v1
    (recvMatches { emptySub with max_fee_rate := some 42 })
    { emptySub with max_fee_rate := some 42 } [] fsEmpty decodeAny 42
    ⟨DB_PATH, some 42, bitcoindDefaultConfig,
      VariantConfig.v1 ⟨3000, "https://localhost:3000"⟩⟩ rfl rfl rfl,
   c6_max_fee_rate_roundtrip.2 Variant.v1 [] fsEmpty decodeAny v1DefaultConfig rfl⟩

end PayjoinCli
